import Mathlib

/-!
Shallow embedding of the browser session orchestrator of
`app/services/browser_manager.py` (with `app/config.py` and
`app/models/schemas.py`), the core specified in the repository's design
document.

Modelling conventions:
* Wall-clock time is `Nat` seconds.
* The Playwright handle objects (`session.playwright`, `session.browser`)
  are modelled as `Bool` fields: `true` = a live object is attached,
  `false` = the field is `None`.  `context`/`page` always live and die
  with `browser`, so they are not tracked separately.
* The filesystem effect of `shutil.rmtree(session.temp_dir)` is tracked by
  the `temp_removed` flag.
* Outcomes of the blocking Playwright calls (`_sync_perform_login`,
  `_sync_submit_2fa_code`, `_sync_upload_file`, browser initialization)
  are oracle parameters: each call's result is an explicit argument, since
  those functions only talk to the remote site and return plain tuples.
* Python is single-threaded on the asyncio event loop, so the observable
  intermediate states of a coroutine are exactly its states at `await`
  points.  `_perform_uploads` is therefore embedded as a step function
  whose atomic blocks are the code segments between `await`s, and the
  manager dict is embedded as a registry of ids over a heap of session
  objects, so that a background task can keep mutating a session object
  after `cancel_session` has popped it from the dict (Python aliasing).
-/

namespace BrowserManager

/-- Enum `SessionState` from `app/models/schemas.py`. -/
inductive SessionState
  | INITIALIZING
  | LOGIN
  | AWAITING_2FA
  | AUTHENTICATED
  | UPLOADING
  | DONE
  | ERROR
  | CANCELLED
deriving DecidableEq, Repr

/-- The enum's string value, used when the state is rendered into a message. -/
def SessionState.str : SessionState → String
  | .INITIALIZING => "initializing"
  | .LOGIN => "login"
  | .AWAITING_2FA => "awaiting_2fa"
  | .AUTHENTICATED => "authenticated"
  | .UPLOADING => "uploading"
  | .DONE => "done"
  | .ERROR => "error"
  | .CANCELLED => "cancelled"

/-- Schema `UploadResult` from `app/models/schemas.py`. -/
structure UploadResult where
  filename : String
  success : Bool
  url : Option String
  error : Option String
deriving DecidableEq, Repr

/-- The settings consumed by the session manager (`app/config.py`). -/
structure Settings where
  session_timeout_seconds : Nat := 600
  max_2fa_wait_seconds : Nat := 90
  max_concurrent_sessions : Nat := 10
deriving DecidableEq, Repr

/-- The global `settings` instance with its defaults. -/
def settings : Settings := {}

/-- Dataclass `BrowserSession` (`browser_manager.py` lines 23-65). -/
structure BrowserSession where
  id : String
  username : String
  state : SessionState
  created_at : Nat
  files_to_upload : List String
  temp_dir : String
  playwright : Bool := false
  browser : Bool := false
  current_file_index : Nat := 0
  results : List UploadResult := []
  message : String := ""
  error : Option String := none
  temp_removed : Bool := false
deriving DecidableEq, Repr

/-- Property `BrowserSession.needs_2fa` (property, lines 47-49). -/
def BrowserSession.needs_2fa (s : BrowserSession) : Bool :=
  s.state = SessionState.AWAITING_2FA

/-- Property `BrowserSession.progress` (property, lines 51-55): guarded division. -/
def BrowserSession.progress (s : BrowserSession) : ℚ :=
  if s.files_to_upload.isEmpty then 0
  else (s.current_file_index : ℚ) / (s.files_to_upload.length : ℚ)

/-- Property `BrowserSession.time_remaining_seconds` (property, lines 57-61). -/
def BrowserSession.time_remaining_seconds (s : BrowserSession) (now : Nat) : Int :=
  max 0 ((settings.session_timeout_seconds : Int) - ((now : Int) - (s.created_at : Int)))

/-- Property `BrowserSession.is_expired` (property, lines 63-65): strict comparison
`time.time() - created_at > session_timeout_seconds`. -/
def BrowserSession.is_expired (s : BrowserSession) (now : Nat) : Bool :=
  settings.session_timeout_seconds < now - s.created_at

/-- The terminal-state test used by `_cleanup_expired_sessions` (line 727):
`state in (DONE, ERROR, CANCELLED)`. -/
def terminalState : SessionState → Bool
  | .DONE => true
  | .ERROR => true
  | .CANCELLED => true
  | _ => false

/-- Method `_sync_cleanup_browser` (lines 699-709): closes and clears both
Playwright handle fields. -/
def cleanup_browser (s : BrowserSession) : BrowserSession :=
  { s with browser := false, playwright := false }

/-- Method `_cleanup_session` (lines 711-720): browser cleanup plus removal of the
temp directory (the `rmtree` only runs when `temp_dir` is truthy). -/
def cleanup_session (s : BrowserSession) : BrowserSession :=
  let s1 := cleanup_browser s
  { s1 with temp_removed := if s.temp_dir = "" then s.temp_removed else true }

/-- Python `file_path.split("/")[-1]` (lines 590 and 629). -/
def basename (p : String) : String :=
  (p.splitOn "/").getLastD ""

/-- The per-item progress message set at the top of the upload loop
(line 591). -/
def uploadingMessage (i n : Nat) (filename : String) : String :=
  "Uploading " ++ filename ++ "... (" ++ toString (i + 1) ++ "/" ++ toString n ++ ")"

/-- The completion message (lines 611-612). -/
def completionMessage (results : List UploadResult) : String :=
  let successful := (results.filter (fun r => r.success)).length
  "Upload complete! " ++ toString successful ++ "/" ++ toString results.length ++
    " files uploaded successfully."

/-- The `UploadResult` appended for work item `i` (lines 594-606): the
oracle `u i` is the `(success, url, error)` triple returned by the
`_sync_upload_file` executor call for item `i` (that function catches every
exception and returns a failure triple, so it never raises). -/
def resultFor (u : Nat → Bool × Option String × Option String)
    (files : List String) (i : Nat) : UploadResult :=
  { filename := basename (files.getD i "")
    success := (u i).1
    url := (u i).2.1
    error := (u i).2.2 }

/-- Scheduling state of the `_perform_uploads` background task, identifying
which `await` the coroutine is parked on.
* `uploading i`: the executor call for item `i` is in flight (the loop head
  for item `i`, cursor update included, has already run);
* `closing`: the loop is done, the terminal assignments have run, and the
  `finally`-block `_cleanup_browser` executor call is in flight;
* `finished`: the coroutine has returned. -/
inductive TaskPhase
  | uploading (i : Nat)
  | closing
  | finished
deriving DecidableEq, Repr

/-- The loop-exit block of `_perform_uploads` (lines 608-612): set the
cursor to `len(files)`, mark `DONE`, set the completion message. -/
def finishBlock (s : BrowserSession) : BrowserSession × TaskPhase :=
  let s1 := { s with current_file_index := s.files_to_upload.length,
                     state := SessionState.DONE }
  ({ s1 with message := completionMessage s1.results }, TaskPhase.closing)

/-- The first atomic block of `_perform_uploads` (lines 582-599): runs from
task start up to the first `await`.  Sets `UPLOADING`, then either enters
the loop for item 0 (non-empty list) or falls straight through to the
loop-exit block (empty list). -/
def uploadEnter (s : BrowserSession) : BrowserSession × TaskPhase :=
  let s1 := { s with state := SessionState.UPLOADING, message := "Starting uploads..." }
  if 0 < s1.files_to_upload.length then
    ({ s1 with current_file_index := 0,
               message := uploadingMessage 0 s1.files_to_upload.length
                 (basename (s1.files_to_upload.getD 0 "")) },
     TaskPhase.uploading 0)
  else
    finishBlock s1

/-- The atomic block run when the executor call for item `i` returns
(lines 601-612): append the item's result, then either start item `i+1` or
run the loop-exit block. -/
def uploadResume (u : Nat → Bool × Option String × Option String)
    (s : BrowserSession) (i : Nat) : BrowserSession × TaskPhase :=
  let s1 := { s with results := s.results ++ [resultFor u s.files_to_upload i] }
  if i + 1 < s1.files_to_upload.length then
    ({ s1 with current_file_index := i + 1,
               message := uploadingMessage (i + 1) s1.files_to_upload.length
                 (basename (s1.files_to_upload.getD (i + 1) "")) },
     TaskPhase.uploading (i + 1))
  else
    finishBlock s1

/-- Completion of the `finally`-block `_cleanup_browser` call (lines
618-620): releases both handles, preserving everything else. -/
def uploadClose (s : BrowserSession) : BrowserSession × TaskPhase :=
  (cleanup_browser s, TaskPhase.finished)

/-- One resumption of the `_perform_uploads` coroutine from an `await`. -/
def uploadStep (u : Nat → Bool × Option String × Option String) :
    BrowserSession × TaskPhase → BrowserSession × TaskPhase
  | (s, TaskPhase.uploading i) => uploadResume u s i
  | (s, TaskPhase.closing) => uploadClose s
  | (s, TaskPhase.finished) => (s, TaskPhase.finished)

/-- The observable snapshots of a session while its upload task runs to
completion, starting just after the task's first atomic block. -/
def uploadTraceAux (u : Nat → Bool × Option String × Option String) :
    Nat → BrowserSession × TaskPhase → List (BrowserSession × TaskPhase)
  | 0, p => [p]
  | fuel + 1, p =>
      p :: (if p.2 = TaskPhase.finished then []
            else uploadTraceAux u fuel (uploadStep u p))

/-- Observable snapshots of `_perform_uploads` run on session `s` with item
oracle `u`, uninterleaved with other operations.  `length files + 2` steps
always reach `finished`. -/
def uploadTrace (u : Nat → Bool × Option String × Option String)
    (s : BrowserSession) : List (BrowserSession × TaskPhase) :=
  uploadTraceAux u (s.files_to_upload.length + 2) (uploadEnter s)

/-- Run the coroutine to completion and return the final session. -/
def runUploadFrom (u : Nat → Bool × Option String × Option String) :
    Nat → BrowserSession × TaskPhase → BrowserSession
  | 0, p => p.1
  | fuel + 1, p =>
      if p.2 = TaskPhase.finished then p.1
      else runUploadFrom u fuel (uploadStep u p)

/-- The session as left behind by a completed `_perform_uploads` run. -/
def runUpload (u : Nat → Bool × Option String × Option String)
    (s : BrowserSession) : BrowserSession :=
  runUploadFrom u (s.files_to_upload.length + 2) (uploadEnter s)

/-! ## The manager's world: session heap plus registry

`BrowserSessionManager._sessions` is a dict from id to a *reference* to a
`BrowserSession` object.  A background task can hold such a reference after
the id has been popped from the dict, so the embedding splits the dict into
`heap` (every session object anybody still references, keyed by id) and
`registered` (the ids currently present in the dict).  The dict's lookup is
`dictGet`; mutation of a session object in place is `setSession`. -/

/-- First-match association-list lookup over the session heap. -/
def heapGet : List (String × BrowserSession) → String → Option BrowserSession
  | [], _ => none
  | (k, s) :: rest, sid => if k = sid then some s else heapGet rest sid

/-- In-place mutation of the session object with id `sid`. -/
def heapSet : List (String × BrowserSession) → String → BrowserSession →
    List (String × BrowserSession)
  | [], _, _ => []
  | (k, s) :: rest, sid, s1 =>
      if k = sid then (k, s1) :: heapSet rest sid s1
      else (k, s) :: heapSet rest sid s1

/-- The manager's mutable state. -/
structure World where
  heap : List (String × BrowserSession)
  registered : List String
deriving DecidableEq, Repr

/-- Lookup `self._sessions.get(session_id)`. -/
def World.dictGet (w : World) (sid : String) : Option BrowserSession :=
  if sid ∈ w.registered then heapGet w.heap sid else none

/-- Mutate the session object `sid` in place (visible through every alias). -/
def World.setSession (w : World) (sid : String) (s : BrowserSession) : World :=
  { w with heap := heapSet w.heap sid s }

/-- Removal `self._sessions.pop(sid, None)`, dict side only. -/
def World.unregister (w : World) (sid : String) : World :=
  { w with registered := w.registered.filter (fun k => k ≠ sid) }

/-- The dict's `(id, session)` items, in registration order. -/
def World.items (w : World) : List (String × BrowserSession) :=
  w.registered.filterMap (fun sid => (heapGet w.heap sid).map (fun s => (sid, s)))

/-- The world of a freshly constructed manager. -/
def emptyWorld : World := { heap := [], registered := [] }

/-! ## Orchestrator operations -/

/-- Session object as constructed at the top of `create_session`
(lines 100-111). -/
def newSession (sid username : String) (now : Nat) (files : List String)
    (temp_dir : String) : BrowserSession :=
  { id := sid
    username := username
    state := SessionState.INITIALIZING
    created_at := now
    files_to_upload := files
    temp_dir := temp_dir
    message := "Initializing browser session..." }

/-- Oracle for `_initialize_browser`: either it returns normally (both
handles attached), or it raises with message `msg`, leaving the handle
fields as partially acquired (`pw`, `b`). -/
inductive InitOutcome
  | ok
  | raises (pw b : Bool) (msg : String)
deriving DecidableEq, Repr

/-- Effect of `await self._initialize_browser(session)` followed by the
`LOGIN` transition (lines 127-129), or of the `except` handler
(lines 153-156) when initialization raises. -/
def afterInit (s : BrowserSession) : InitOutcome → BrowserSession
  | InitOutcome.ok =>
      { s with playwright := true, browser := true,
               state := SessionState.LOGIN,
               message := "Logging in to Luminate Online..." }
  | InitOutcome.raises pw b msg =>
      cleanup_session { s with playwright := pw, browser := b,
                               state := SessionState.ERROR, error := some msg }

/-- What `create_session` hands back to its caller (its return tuple minus
the echoed `session_id`, which is the `sid` argument), together with the
manager world it leaves behind and whether it spawned the upload task. -/
structure CreateResult where
  world : World
  state : SessionState
  needs_2fa : Bool
  message : String
  error : Option String
  upload_started : Bool
deriving DecidableEq, Repr

/-- Applying the `(needs_2fa, error)` pair returned by `_perform_login`
(lines 132-151).  `_sync_perform_login` catches every exception, so the
pair is the only outcome; the `if error:` branch is checked first. -/
def afterLogin (s : BrowserSession) (lr : Bool × Option String) :
    BrowserSession × SessionState × Bool × String × Option String × Bool :=
  match lr with
  | (_, some e) =>
      ({ s with state := SessionState.ERROR, error := some e },
       SessionState.ERROR, false, "", some e, false)
  | (true, none) =>
      let s1 := { s with state := SessionState.AWAITING_2FA,
                         message := "Two-factor authentication required. Please enter your 6-digit code." }
      (s1, SessionState.AWAITING_2FA, true, s1.message, none, false)
  | (false, none) =>
      let s1 := { s with state := SessionState.AUTHENTICATED,
                         message := "Login successful! Starting uploads..." }
      (s1, SessionState.AUTHENTICATED, false, s1.message, none, true)

/-- Method `create_session` (lines 87-157).  `sid` stands for the fresh
`uuid.uuid4()`; `ir` and `lr` are the outcomes of the browser
initialization and of `_perform_login`.  At capacity the function returns
before registering anything and before any Playwright call. -/
def create_session (w : World) (sid username : String) (now : Nat)
    (files : List String) (temp_dir : String)
    (ir : InitOutcome) (lr : Bool × Option String) : CreateResult :=
  let s0 := newSession sid username now files temp_dir
  if settings.max_concurrent_sessions ≤ w.registered.length then
    { world := w, state := SessionState.ERROR, needs_2fa := false, message := "",
      error := some "Maximum concurrent sessions reached. Please try again later.",
      upload_started := false }
  else
    let w1 : World := { heap := (sid, s0) :: w.heap, registered := sid :: w.registered }
    match ir with
    | InitOutcome.raises pw b msg =>
        let s1 := afterInit s0 (InitOutcome.raises pw b msg)
        { world := w1.setSession sid s1, state := SessionState.ERROR,
          needs_2fa := false, message := "", error := some msg, upload_started := false }
    | InitOutcome.ok =>
        let s1 := afterInit s0 InitOutcome.ok
        let r := afterLogin s1 lr
        { world := w1.setSession sid r.1, state := r.2.1, needs_2fa := r.2.2.1,
          message := r.2.2.2.1, error := r.2.2.2.2.1, upload_started := r.2.2.2.2.2 }

/-- Return value of `submit_2fa`, with the world it leaves behind and
whether it spawned the upload task. -/
structure SubmitResult where
  world : World
  success : Bool
  state : SessionState
  message : String
  error : Option String
  upload_started : Bool
deriving DecidableEq, Repr

/-- Method `submit_2fa` (lines 159-197).  `cr` is the outcome of the awaited
`_submit_2fa_code` call: `.ok (success, error)` is its returned pair,
`.error e` the case where the awaited call itself raises (the path of the
`except` handler at lines 194-197). -/
def submit_2fa (w : World) (sid code : String)
    (cr : Except String (Bool × Option String)) : SubmitResult :=
  match w.dictGet sid with
  | none =>
      { world := w, success := false, state := SessionState.ERROR, message := "",
        error := some "Session not found or expired", upload_started := false }
  | some s =>
      if s.state ≠ SessionState.AWAITING_2FA then
        { world := w, success := false, state := s.state, message := "",
          error := some ("Session not awaiting 2FA (state: " ++ s.state.str ++ ")"),
          upload_started := false }
      else
        match cr with
        | Except.error e =>
            let s1 := { s with state := SessionState.ERROR, error := some e }
            { world := w.setSession sid s1, success := false,
              state := SessionState.ERROR, message := "", error := some e,
              upload_started := false }
        | Except.ok (success, err) =>
            if success then
              let s1 := { s with state := SessionState.AUTHENTICATED,
                                 message := "Authentication successful! Starting uploads..." }
              { world := w.setSession sid s1, success := true,
                state := SessionState.AUTHENTICATED, message := s1.message,
                error := none, upload_started := true }
            else
              { world := w, success := false, state := SessionState.AWAITING_2FA,
                message := "", error := some (err.getD "Invalid 2FA code"),
                upload_started := false }

/-- The status dict built by `get_session_status` (lines 199-222). -/
structure StatusView where
  session_id : String
  state : SessionState
  needs_2fa : Bool
  progress : ℚ
  current_file : Option String
  total_files : Nat
  completed_files : Nat
  results : List UploadResult
  message : String
  error : Option String
  time_remaining_seconds : Int
deriving DecidableEq, Repr

/-- Method `get_session_status` (lines 199-222): pure read, `none` for unknown or
evicted ids. -/
def get_session_status (w : World) (sid : String) (now : Nat) : Option StatusView :=
  match w.dictGet sid with
  | none => none
  | some s =>
      some { session_id := s.id
             state := s.state
             needs_2fa := s.needs_2fa
             progress := s.progress
             current_file :=
               if s.current_file_index < s.files_to_upload.length then
                 some (s.files_to_upload.getD s.current_file_index "")
               else none
             total_files := s.files_to_upload.length
             completed_files := s.current_file_index
             results := s.results
             message := s.message
             error := s.error
             time_remaining_seconds := s.time_remaining_seconds now }

/-- Method `cancel_session` (lines 224-237): unconditionally marks `CANCELLED`,
runs the full cleanup, then pops the id; `false` when the id is unknown. -/
def cancel_session (w : World) (sid : String) : World × Bool :=
  match w.dictGet sid with
  | none => (w, false)
  | some s =>
      let s1 := cleanup_session { s with state := SessionState.CANCELLED }
      let w1 := w.setSession sid s1
      (w1.unregister sid, true)

/-- One resumption of a `_perform_uploads` task that was spawned for the
session object `sid`: the task addresses the heap object directly, whether
or not the id is still registered. -/
def worldUploadStep (u : Nat → Bool × Option String × Option String)
    (sid : String) (w : World) (ph : TaskPhase) : World × TaskPhase :=
  match heapGet w.heap sid with
  | none => (w, ph)
  | some s =>
      let p := uploadStep u (s, ph)
      (w.setSession sid p.1, p.2)

/-! ## Reaper -/

/-- The eviction list computed by `_cleanup_expired_sessions`
(lines 725-728). -/
def expiredIds (w : World) (now : Nat) : List String :=
  (w.items.filter (fun p => p.2.is_expired now || terminalState p.2.state)).map
    Prod.fst

/-- One iteration of the eviction loop (lines 730-733): `dict.pop` first,
then `_cleanup_session` on the popped object. -/
def evictOne (w : World) (sid : String) : World :=
  match w.dictGet sid with
  | none => w
  | some s => (w.unregister sid).setSession sid (cleanup_session s)

/-- Method `_cleanup_expired_sessions` (lines 722-733). -/
def cleanup_expired_sessions (w : World) (now : Nat) : World :=
  (expiredIds w now).foldl evictOne w

/-- The observable worlds during one reaper sweep: the sweep awaits inside
each `_cleanup_session`, so after each `dict.pop` (teardown still pending)
there is an await point at which `get_session_status` can run. -/
def evictWorlds (w : World) : List String → List World
  | [] => [w]
  | sid :: rest =>
      match w.dictGet sid with
      | none => w :: evictWorlds w rest
      | some s =>
          let w1 := w.unregister sid
          w :: w1 :: evictWorlds (w1.setSession sid (cleanup_session s)) rest

/-- Observable worlds of `_cleanup_expired_sessions w now`. -/
def sweepTrace (w : World) (now : Nat) : List World :=
  evictWorlds w (expiredIds w now)

/-! ## Auxiliary definitions for invariants and concrete instantiations -/

/-- The session object `sid` is out of the registry while its latest value
`s1` is still on the heap (a background reference could still see it). -/
def offRegistry (w : World) (sid : String) (s1 : BrowserSession) : Prop :=
  heapGet w.heap sid = some s1 ∧ sid ∉ w.registered

/-- Invariant at every observable point of a `_perform_uploads` run:
results are exactly the outcomes of the already-completed items, in item
order, and the cursor/phase agree. -/
def goodPoint (u : Nat → Bool × Option String × Option String)
    (files : List String) (p : BrowserSession × TaskPhase) : Prop :=
  p.1.files_to_upload = files ∧
  p.1.results = (List.range p.1.current_file_index).map (resultFor u files) ∧
  (match p.2 with
   | TaskPhase.uploading i =>
       p.1.current_file_index = i ∧ i < files.length ∧
       p.1.state = SessionState.UPLOADING
   | TaskPhase.closing =>
       p.1.current_file_index = files.length ∧ p.1.state = SessionState.DONE
   | TaskPhase.finished =>
       p.1.current_file_index = files.length ∧ p.1.state = SessionState.DONE ∧
       p.1.browser = false ∧ p.1.playwright = false)

/-- Steps needed for the coroutine to return from a given parked phase. -/
def phaseFuel (n : Nat) : TaskPhase → Nat
  | TaskPhase.uploading i => n - i + 1
  | TaskPhase.closing => 1
  | TaskPhase.finished => 0

/-- A live logged-in-ish session in state `st`, used for concrete
instantiations: created at time 0, two files, handles attached. -/
def sampleAt (st : SessionState) : BrowserSession :=
  { newSession "a" "user" 0 ["pics/one.png", "two.png"] "/tmp/a" with
      playwright := true, browser := true, state := st }

/-- A one-session manager world holding `sampleAt st` under id `"a"`. -/
def sampleWorld (st : SessionState) : World :=
  { heap := [("a", sampleAt st)], registered := ["a"] }

/-- A manager world already holding `max_concurrent_sessions` sessions. -/
def wTen : World :=
  { heap := (List.range 10).map
      (fun i => (toString i, newSession (toString i) "u" 0 [] "")),
    registered := (List.range 10).map (fun i => toString i) }

/-- An item oracle whose every upload succeeds. -/
def uScenario : Nat → Bool × Option String × Option String :=
  fun _ => (true, some "https://danafarber.jimmyfund.org/images/content/pagebuilder/one.png", none)

/-- Session `sampleAt SessionState.UPLOADING` with an empty work-item list. -/
def sampleNoFiles : BrowserSession :=
  { sampleAt SessionState.UPLOADING with files_to_upload := [] }

/-- A one-session world holding `sampleNoFiles` under id `"a"`. -/
def sampleNoFilesWorld : World :=
  { heap := [("a", sampleNoFiles)], registered := ["a"] }

/-- The status view reported for `sampleNoFilesWorld` at time 3, spelled
out. -/
def sampleView : StatusView :=
  { session_id := "a"
    state := SessionState.UPLOADING
    needs_2fa := false
    progress := 0
    current_file := none
    total_files := 0
    completed_files := 0
    results := []
    message := "Initializing browser session..."
    error := none
    time_remaining_seconds := 597 }

/-- The observable session states along the scenario of C7, run concretely
on a fresh manager (login demands a second factor, two wrong codes, then a
correct one, then the upload task runs): the state during
`create_session`'s login await, the state `create_session` returns, the
state after the second wrong `submit_2fa`, the state after the correct
`submit_2fa`, the state at the first await of the spawned upload task, and
the state once the task has finished. -/
def scenarioStates : List SessionState :=
  let r1 := create_session emptyWorld "a" "user" 0 ["pics/one.png", "two.png"] "/tmp/a"
      InitOutcome.ok (true, none)
  let r2 := submit_2fa r1.world "a" "111111"
      (Except.ok (false, some "Invalid 2FA code. Please try again."))
  let r3 := submit_2fa r2.world "a" "222222"
      (Except.ok (false, some "Invalid 2FA code. Please try again."))
  let r4 := submit_2fa r3.world "a" "333333" (Except.ok (true, none))
  match r4.world.dictGet "a" with
  | none => []
  | some s4 =>
      (afterInit (newSession "a" "user" 0 ["pics/one.png", "two.png"] "/tmp/a")
        InitOutcome.ok).state ::
      r1.state :: r3.state :: r4.state ::
      (uploadEnter s4).1.state :: [(runUpload uScenario s4).state]

/-! ## Heap and registry lemmas -/

theorem heapGet_heapSet_self {h : List (String × BrowserSession)} {sid : String}
    {s s1 : BrowserSession} (hg : heapGet h sid = some s) :
    heapGet (heapSet h sid s1) sid = some s1 := by
  induction h with
  | nil => simp [heapGet] at hg
  | cons p rest ih =>
    rcases p with ⟨k, t⟩
    by_cases hk : k = sid
    · simp only [heapSet, if_pos hk, heapGet]
    · simp only [heapGet, if_neg hk] at hg
      simp only [heapSet, if_neg hk, heapGet]
      exact ih hg

theorem heapGet_heapSet_ne {h : List (String × BrowserSession)} {k sid : String}
    {s1 : BrowserSession} (hk : k ≠ sid) :
    heapGet (heapSet h k s1) sid = heapGet h sid := by
  induction h with
  | nil => rfl
  | cons p rest ih =>
    rcases p with ⟨k2, t⟩
    by_cases h2 : k2 = k
    · subst h2
      simp only [heapSet, if_pos rfl, heapGet, if_neg hk]
      exact ih
    · by_cases h3 : k2 = sid
      · simp only [heapSet, if_neg h2, heapGet, if_pos h3]
      · simp only [heapSet, if_neg h2, heapGet, if_neg h3]
        exact ih

theorem dictGet_some_iff {w : World} {sid : String} {s : BrowserSession} :
    w.dictGet sid = some s ↔ sid ∈ w.registered ∧ heapGet w.heap sid = some s := by
  unfold World.dictGet
  by_cases h : sid ∈ w.registered <;> simp [h]

theorem mem_filter_ne {l : List String} {sid k : String} :
    k ∈ l.filter (fun x => x ≠ sid) ↔ k ∈ l ∧ k ≠ sid := by
  simp [List.mem_filter]

theorem registered_setSession (w : World) (k : String) (s1 : BrowserSession) :
    (w.setSession k s1).registered = w.registered := rfl

theorem heap_unregister (w : World) (k : String) :
    (w.unregister k).heap = w.heap := rfl

theorem dictGet_unregister_self (w : World) (sid : String) :
    (w.unregister sid).dictGet sid = none := by
  unfold World.unregister World.dictGet
  simp [List.mem_filter]

theorem dictGet_unregister_ne {w : World} {k sid : String} (h : k ≠ sid) :
    (w.unregister k).dictGet sid = w.dictGet sid := by
  unfold World.unregister World.dictGet
  by_cases hm : sid ∈ w.registered
  · rw [if_pos hm, if_pos (mem_filter_ne.mpr ⟨hm, Ne.symm h⟩)]
  · rw [if_neg hm, if_neg (fun hc => hm (mem_filter_ne.mp hc).1)]

theorem dictGet_setSession_ne {w : World} {k sid : String} {s1 : BrowserSession}
    (h : k ≠ sid) :
    (w.setSession k s1).dictGet sid = w.dictGet sid := by
  unfold World.setSession World.dictGet
  by_cases hm : sid ∈ w.registered <;> simp [hm, heapGet_heapSet_ne h]

theorem dictGet_evicted_self (w : World) (sid : String) (s1 : BrowserSession) :
    ((w.unregister sid).setSession sid s1).dictGet sid = none := by
  unfold World.setSession World.unregister World.dictGet
  simp [List.mem_filter]

/-! ## Reaper fold lemmas -/

theorem evictOne_dictGet_ne {w : World} {k sid : String} (h : k ≠ sid) :
    (evictOne w k).dictGet sid = w.dictGet sid := by
  unfold evictOne
  cases hk : w.dictGet k with
  | none => rfl
  | some s => rw [dictGet_setSession_ne h, dictGet_unregister_ne h]

theorem foldl_evictOne_not_mem : ∀ (ids : List String) (w : World) (sid : String),
    sid ∉ ids → (ids.foldl evictOne w).dictGet sid = w.dictGet sid := by
  intro ids
  induction ids with
  | nil => intro w sid _; rfl
  | cons k rest ih =>
    intro w sid h
    rw [List.foldl_cons]
    have hk : k ≠ sid := fun he => h (by simp [he])
    rw [ih _ _ (fun hm => h (List.mem_cons_of_mem _ hm)), evictOne_dictGet_ne hk]

theorem offRegistry_evictOne {w : World} {sid : String} {s1 : BrowserSession}
    (k : String) (h : offRegistry w sid s1) : offRegistry (evictOne w k) sid s1 := by
  by_cases hk : k = sid
  · subst hk
    have hd : w.dictGet k = none := by
      unfold World.dictGet
      rw [if_neg h.2]
    simp only [evictOne, hd]
    exact h
  · unfold evictOne
    cases hd : w.dictGet k with
    | none => exact h
    | some t =>
      refine ⟨?_, ?_⟩
      · show heapGet (heapSet w.heap k (cleanup_session t)) sid = some s1
        rw [heapGet_heapSet_ne hk]
        exact h.1
      · intro hc
        exact h.2 (mem_filter_ne.mp hc).1

theorem offRegistry_foldl : ∀ (ids : List String) (w : World) (sid : String)
    (s1 : BrowserSession), offRegistry w sid s1 →
    offRegistry (ids.foldl evictOne w) sid s1 := by
  intro ids
  induction ids with
  | nil => intro w sid s1 h; exact h
  | cons k rest ih =>
    intro w sid s1 h
    rw [List.foldl_cons]
    exact ih _ _ _ (offRegistry_evictOne k h)

theorem sweep_foldl_cleans : ∀ (ids : List String) (w : World) (sid : String)
    (s : BrowserSession), w.dictGet sid = some s → sid ∈ ids →
    offRegistry (ids.foldl evictOne w) sid (cleanup_session s) := by
  intro ids
  induction ids with
  | nil => intro w sid s _ hm; simp at hm
  | cons k rest ih =>
    intro w sid s hs hm
    rw [List.foldl_cons]
    by_cases hk : k = sid
    · subst hk
      have h1 : offRegistry (evictOne w k) k (cleanup_session s) := by
        unfold evictOne
        rw [hs]
        refine ⟨?_, ?_⟩
        · exact heapGet_heapSet_self (dictGet_some_iff.mp hs).2
        · intro hc
          exact (mem_filter_ne.mp hc).2 rfl
      exact offRegistry_foldl rest _ _ _ h1
    · have hm2 : sid ∈ rest := by
        rcases List.mem_cons.mp hm with he | hm2
        · exact absurd he.symm hk
        · exact hm2
      exact ih _ _ _ (by rw [evictOne_dictGet_ne hk]; exact hs) hm2

theorem mem_expiredIds {w : World} {now : Nat} {sid : String} :
    sid ∈ expiredIds w now →
    ∃ s, w.dictGet sid = some s ∧
      (s.is_expired now || terminalState s.state) = true := by
  intro h
  unfold expiredIds at h
  rcases List.mem_map.mp h with ⟨p, hp, hfst⟩
  rcases List.mem_filter.mp hp with ⟨hitems, hpred⟩
  unfold World.items at hitems
  rcases List.mem_filterMap.mp hitems with ⟨a, ha, hf⟩
  cases hg : heapGet w.heap a with
  | none => rw [hg] at hf; simp at hf
  | some s =>
    rw [hg] at hf
    have hpa : p = (a, s) := by simpa using hf.symm
    subst hpa
    have ha2 : a = sid := hfst
    subst ha2
    exact ⟨s, dictGet_some_iff.mpr ⟨ha, hg⟩, hpred⟩

theorem not_mem_expiredIds {w : World} {now : Nat} {sid : String}
    {s : BrowserSession} (hs : w.dictGet sid = some s)
    (hp : (s.is_expired now || terminalState s.state) = false) :
    sid ∉ expiredIds w now := by
  intro hc
  rcases mem_expiredIds hc with ⟨t, ht, hpt⟩
  rw [hs] at ht
  cases ht
  rw [hp] at hpt
  exact Bool.false_ne_true hpt

theorem evictWorlds_dictGet : ∀ (ids : List String) (w w1 : World),
    w1 ∈ evictWorlds w ids → ∀ id,
    w1.dictGet id = w.dictGet id ∨ w1.dictGet id = none := by
  intro ids
  induction ids with
  | nil =>
    intro w w1 h id
    simp only [evictWorlds, List.mem_singleton] at h
    subst h
    left
    rfl
  | cons k rest ih =>
    intro w w1 h id
    unfold evictWorlds at h
    cases hk : w.dictGet k with
    | none =>
      rw [hk] at h
      rcases List.mem_cons.mp h with he | h2
      · subst he; left; rfl
      · exact ih _ _ h2 id
    | some s =>
      rw [hk] at h
      rcases List.mem_cons.mp h with he | h2
      · subst he; left; rfl
      rcases List.mem_cons.mp h2 with he | h3
      · subst he
        by_cases hid : k = id
        · subst hid; right; exact dictGet_unregister_self _ _
        · left; exact dictGet_unregister_ne hid
      · have hrec := ih _ _ h3 id
        by_cases hid : k = id
        · subst hid
          have hz : ((w.unregister k).setSession k (cleanup_session s)).dictGet k = none :=
            dictGet_evicted_self _ _ _
          rcases hrec with h4 | h4
          · right; rw [h4, hz]
          · right; exact h4
        · have hz : ((w.unregister k).setSession k (cleanup_session s)).dictGet id
              = w.dictGet id := by
            rw [dictGet_setSession_ne hid, dictGet_unregister_ne hid]
          rcases hrec with h4 | h4
          · left; rw [h4, hz]
          · right; exact h4

/-! ## Upload-loop invariant -/

theorem goodPoint_cursor_le {u : Nat → Bool × Option String × Option String}
    {files : List String} {p : BrowserSession × TaskPhase}
    (h : goodPoint u files p) : p.1.current_file_index ≤ files.length := by
  rcases h with ⟨-, -, h3⟩
  rcases hp : p.2 with i | _ | _ <;> rw [hp] at h3
  · exact h3.1 ▸ Nat.le_of_lt h3.2.1
  · exact Nat.le_of_eq h3.1
  · exact Nat.le_of_eq h3.1

theorem finishBlock_good {u : Nat → Bool × Option String × Option String}
    {files : List String} {s : BrowserSession}
    (hf : s.files_to_upload = files)
    (hr : s.results = (List.range files.length).map (resultFor u files)) :
    goodPoint u files (finishBlock s) := by
  unfold finishBlock goodPoint
  refine ⟨hf, ?_, ?_, rfl⟩
  · simpa [hf] using hr
  · simp [hf]

theorem uploadStep_good {u : Nat → Bool × Option String × Option String}
    {files : List String} {p : BrowserSession × TaskPhase}
    (h : goodPoint u files p) : goodPoint u files (uploadStep u p) := by
  rcases p with ⟨s, ph⟩
  rcases h with ⟨hf, hr, h3⟩
  cases ph with
  | uploading i =>
    rcases h3 with ⟨hc, hi, hst⟩
    have hres : s.results ++ [resultFor u s.files_to_upload i]
        = (List.range (i + 1)).map (resultFor u files) := by
      rw [hf, hr, hc, List.range_succ, List.map_append, List.map_cons, List.map_nil]
    show goodPoint u files (uploadResume u s i)
    unfold uploadResume
    by_cases hlt : i + 1 < s.files_to_upload.length
    · rw [if_pos hlt]
      exact ⟨hf, by simpa using hres, rfl, by rwa [hf] at hlt, hst⟩
    · rw [if_neg hlt]
      have hlen : i + 1 = files.length := by
        rw [hf] at hlt
        omega
      refine finishBlock_good hf ?_
      simpa [hlen] using hres
  | closing =>
    rcases h3 with ⟨hc, hst⟩
    exact ⟨hf, hr, by simpa [cleanup_browser] using hc,
      by simpa [cleanup_browser] using hst, rfl, rfl⟩
  | finished =>
    exact ⟨hf, hr, h3⟩

theorem uploadEnter_good {u : Nat → Bool × Option String × Option String}
    {s : BrowserSession} (h : s.results = []) :
    goodPoint u s.files_to_upload (uploadEnter s) := by
  unfold uploadEnter
  by_cases hl : 0 < s.files_to_upload.length
  · rw [if_pos hl]
    exact ⟨rfl, by simpa using h, rfl, hl, rfl⟩
  · rw [if_neg hl]
    have hn : s.files_to_upload.length = 0 := by omega
    refine finishBlock_good rfl ?_
    simpa [hn] using h

theorem uploadTraceAux_good {u : Nat → Bool × Option String × Option String}
    {files : List String} : ∀ (fuel : Nat) (p : BrowserSession × TaskPhase),
    goodPoint u files p →
    ∀ q ∈ uploadTraceAux u fuel p, goodPoint u files q := by
  intro fuel
  induction fuel with
  | zero =>
    intro p hp q hq
    simp only [uploadTraceAux, List.mem_singleton] at hq
    exact hq ▸ hp
  | succ n ih =>
    intro p hp q hq
    simp only [uploadTraceAux, List.mem_cons] at hq
    rcases hq with he | hq
    · exact he ▸ hp
    · by_cases hfin : p.2 = TaskPhase.finished
      · rw [if_pos hfin] at hq
        simp at hq
      · rw [if_neg hfin] at hq
        exact ih _ (uploadStep_good hp) q hq

theorem phaseFuel_step {u : Nat → Bool × Option String × Option String}
    {files : List String} {p : BrowserSession × TaskPhase}
    (h : goodPoint u files p) (hfin : p.2 ≠ TaskPhase.finished) :
    phaseFuel files.length (uploadStep u p).2 < phaseFuel files.length p.2 := by
  rcases p with ⟨s, ph⟩
  rcases h with ⟨hf, -, h3⟩
  cases ph with
  | uploading i =>
    rcases h3 with ⟨-, hi, -⟩
    show phaseFuel files.length (uploadResume u s i).2 < files.length - i + 1
    unfold uploadResume
    by_cases hlt : i + 1 < s.files_to_upload.length
    · rw [if_pos hlt]
      show phaseFuel files.length (TaskPhase.uploading (i + 1)) < files.length - i + 1
      simp only [phaseFuel]
      omega
    · rw [if_neg hlt]
      show phaseFuel files.length TaskPhase.closing < files.length - i + 1
      simp only [phaseFuel]
      omega
  | closing =>
    simp [uploadStep, uploadClose, phaseFuel]
  | finished =>
    exact absurd rfl hfin

theorem runUploadFrom_spec {u : Nat → Bool × Option String × Option String}
    {files : List String} : ∀ (fuel : Nat) (p : BrowserSession × TaskPhase),
    goodPoint u files p → phaseFuel files.length p.2 ≤ fuel →
    (runUploadFrom u fuel p).files_to_upload = files ∧
    (runUploadFrom u fuel p).results
      = (List.range files.length).map (resultFor u files) ∧
    (runUploadFrom u fuel p).current_file_index = files.length ∧
    (runUploadFrom u fuel p).state = SessionState.DONE ∧
    (runUploadFrom u fuel p).browser = false ∧
    (runUploadFrom u fuel p).playwright = false := by
  intro fuel
  induction fuel with
  | zero =>
    intro p hp hb
    have hfin : p.2 = TaskPhase.finished := by
      cases hph : p.2 with
      | uploading i =>
        rw [hph] at hb
        simp only [phaseFuel] at hb
        omega
      | closing =>
        rw [hph] at hb
        simp only [phaseFuel] at hb
        omega
      | finished => rfl
    rcases hp with ⟨hf, hr, h3⟩
    rw [hfin] at h3
    rcases h3 with ⟨hc, hst, hbr, hpw⟩
    exact ⟨hf, by rw [show runUploadFrom u 0 p = p.1 from rfl, hr, hc],
      hc, hst, hbr, hpw⟩
  | succ n ih =>
    intro p hp hb
    by_cases hfin : p.2 = TaskPhase.finished
    · rcases hp with ⟨hf, hr, h3⟩
      rw [hfin] at h3
      rcases h3 with ⟨hc, hst, hbr, hpw⟩
      rw [show runUploadFrom u (n + 1) p = p.1 by simp [runUploadFrom, hfin]]
      exact ⟨hf, by rw [hr, hc], hc, hst, hbr, hpw⟩
    · rw [show runUploadFrom u (n + 1) p = runUploadFrom u n (uploadStep u p) by
        simp [runUploadFrom, hfin]]
      refine ih _ (uploadStep_good hp) ?_
      have := phaseFuel_step hp hfin
      omega

theorem runUpload_spec {u : Nat → Bool × Option String × Option String}
    {s : BrowserSession} (h : s.results = []) :
    (runUpload u s).files_to_upload = s.files_to_upload ∧
    (runUpload u s).results
      = (List.range s.files_to_upload.length).map (resultFor u s.files_to_upload) ∧
    (runUpload u s).current_file_index = s.files_to_upload.length ∧
    (runUpload u s).state = SessionState.DONE ∧
    (runUpload u s).browser = false ∧
    (runUpload u s).playwright = false := by
  refine runUploadFrom_spec _ _ (uploadEnter_good h) ?_
  unfold uploadEnter
  by_cases hl : 0 < s.files_to_upload.length
  · rw [if_pos hl]
    simp [phaseFuel]
  · rw [if_neg hl]
    simp [finishBlock, phaseFuel]

/-! ## Further lemmas and concrete instances -/

theorem dictGet_setSession_self {w : World} {sid : String} {s s1 : BrowserSession}
    (h : w.dictGet sid = some s) : (w.setSession sid s1).dictGet sid = some s1 := by
  rcases dictGet_some_iff.mp h with ⟨hm, hg⟩
  exact dictGet_some_iff.mpr ⟨hm, heapGet_heapSet_self hg⟩

theorem dictGet_none_of_not_registered {w : World} {sid : String}
    (h : sid ∉ w.registered) : w.dictGet sid = none := by
  unfold World.dictGet
  rw [if_neg h]

theorem mem_expiredIds_of {w : World} {now : Nat} {sid : String}
    {s : BrowserSession} (hs : w.dictGet sid = some s)
    (hp : (s.is_expired now || terminalState s.state) = true) :
    sid ∈ expiredIds w now := by
  unfold expiredIds
  refine List.mem_map.mpr ⟨(sid, s), ?_, rfl⟩
  refine List.mem_filter.mpr ⟨?_, hp⟩
  unfold World.items
  refine List.mem_filterMap.mpr ⟨sid, (dictGet_some_iff.mp hs).1, ?_⟩
  rw [(dictGet_some_iff.mp hs).2]
  rfl

theorem cancel_session_not_found {w : World} {sid : String}
    (h : w.dictGet sid = none) : cancel_session w sid = (w, false) := by
  unfold cancel_session
  rw [h]

theorem runUpload_nil {u : Nat → Bool × Option String × Option String}
    {s : BrowserSession} (hf : s.files_to_upload = []) :
    runUpload u s = cleanup_browser (finishBlock { s with
        state := SessionState.UPLOADING, message := "Starting uploads..." }).1 := by
  simp only [runUpload, uploadEnter]
  rw [if_neg (by simp [hf])]
  rw [hf]
  rfl

theorem worldUploadStep_registered (u : Nat → Bool × Option String × Option String)
    (sid2 : String) (w : World) (ph : TaskPhase) :
    (worldUploadStep u sid2 w ph).1.registered = w.registered := by
  unfold worldUploadStep
  cases heapGet w.heap sid2 <;> rfl

/-- The session object registered by a below-capacity `create_session`
call: the new session after the initialization outcome and (on successful
initialization) the login outcome have been applied. -/
theorem create_session_dictGet (w : World) (sid username : String) (now : Nat)
    (files : List String) (temp_dir : String) (ir : InitOutcome)
    (lr : Bool × Option String)
    (h : w.registered.length < settings.max_concurrent_sessions) :
    (create_session w sid username now files temp_dir ir lr).world.dictGet sid
      = some (match ir with
        | InitOutcome.raises pw b msg =>
            afterInit (newSession sid username now files temp_dir)
              (InitOutcome.raises pw b msg)
        | InitOutcome.ok =>
            (afterLogin (afterInit (newSession sid username now files temp_dir)
              InitOutcome.ok) lr).1) := by
  simp only [create_session]
  rw [if_neg (Nat.not_le.mpr h)]
  cases ir <;>
    simp [World.dictGet, World.setSession, heapGet, heapSet]

/-! ## Claim theorems -/

/-- C5: a `create_session` call made while the registry already holds
`max_concurrent_sessions` entries returns the distinct capacity error
synchronously, leaves the manager's world untouched (nothing inserted, no
browser handle allocated, no state-machine transition applied), and spawns
no upload task — for every initialization and login oracle, which are never
consulted. -/
theorem create_session_capacity (w : World) (sid username : String) (now : Nat)
    (files : List String) (temp_dir : String) (ir : InitOutcome)
    (lr : Bool × Option String)
    (h : settings.max_concurrent_sessions ≤ w.registered.length) :
    (create_session w sid username now files temp_dir ir lr).world = w ∧
    (create_session w sid username now files temp_dir ir lr).error
      = some "Maximum concurrent sessions reached. Please try again later." ∧
    (create_session w sid username now files temp_dir ir lr).upload_started = false := by
  simp [create_session, h]

theorem create_session_capacity_witness :
    settings.max_concurrent_sessions ≤ wTen.registered.length ∧
    ((create_session wTen "x" "u" 5 ["f.png"] "/t" InitOutcome.ok (false, none)).world
        = wTen ∧
     (create_session wTen "x" "u" 5 ["f.png"] "/t" InitOutcome.ok (false, none)).error
        = some "Maximum concurrent sessions reached. Please try again later." ∧
     (create_session wTen "x" "u" 5 ["f.png"] "/t" InitOutcome.ok
        (false, none)).upload_started = false) :=
  ⟨by decide,
   create_session_capacity wTen "x" "u" 5 ["f.png"] "/t" InitOutcome.ok (false, none)
     (by decide)⟩

/-- C6: `cancel_session` on a registered, non-terminal session returns
`true`, marks the session object `CANCELLED`, releases both Playwright
handles and the temp directory, and removes the id from the registry; a
second `cancel_session` with the same id finds nothing and is a no-op
returning `false`. -/
theorem cancel_session_spec (w : World) (sid : String) (s : BrowserSession)
    (hs : w.dictGet sid = some s) (hnt : terminalState s.state = false) :
    (cancel_session w sid).2 = true ∧
    (cancel_session w sid).1.dictGet sid = none ∧
    (∃ s1, heapGet (cancel_session w sid).1.heap sid = some s1 ∧
        s1.state = SessionState.CANCELLED ∧ s1.browser = false ∧
        s1.playwright = false ∧ (s.temp_dir ≠ "" → s1.temp_removed = true)) ∧
    cancel_session (cancel_session w sid).1 sid = ((cancel_session w sid).1, false) := by
  have hrepr : cancel_session w sid
      = ((w.setSession sid (cleanup_session { s with
            state := SessionState.CANCELLED })).unregister sid, true) := by
    unfold cancel_session
    rw [hs]
  have hnone : (cancel_session w sid).1.dictGet sid = none := by
    rw [hrepr]
    exact dictGet_unregister_self _ _
  refine ⟨by rw [hrepr], hnone, ?_, ?_⟩
  · refine ⟨cleanup_session { s with state := SessionState.CANCELLED }, ?_, rfl, rfl, rfl, ?_⟩
    · rw [hrepr]
      exact heapGet_heapSet_self (dictGet_some_iff.mp hs).2
    · intro hne
      simp [cleanup_session, cleanup_browser, hne]
  · exact cancel_session_not_found hnone

theorem cancel_session_spec_witness :
    ((cancel_session (sampleWorld SessionState.AWAITING_2FA) "a").2 = true ∧
     (cancel_session (sampleWorld SessionState.AWAITING_2FA) "a").1.dictGet "a" = none ∧
     (∃ s1, heapGet (cancel_session (sampleWorld SessionState.AWAITING_2FA) "a").1.heap "a"
          = some s1 ∧
        s1.state = SessionState.CANCELLED ∧ s1.browser = false ∧
        s1.playwright = false ∧
        ((sampleAt SessionState.AWAITING_2FA).temp_dir ≠ "" → s1.temp_removed = true)) ∧
     cancel_session (cancel_session (sampleWorld SessionState.AWAITING_2FA) "a").1 "a"
        = ((cancel_session (sampleWorld SessionState.AWAITING_2FA) "a").1, false)) :=
  cancel_session_spec (sampleWorld SessionState.AWAITING_2FA) "a"
    (sampleAt SessionState.AWAITING_2FA) (by decide) (by decide)

/-- C8: every id on the reaper's eviction list belongs to a registered
session that is expired (`now - created_at > session_timeout_seconds`) or
terminal; equivalently, a registered session that is neither expired nor
terminal survives `_cleanup_expired_sessions` untouched. -/
theorem reaper_eviction_condition (w : World) (now : Nat) (sid : String) :
    (∀ s, w.dictGet sid = some s → s.is_expired now = false →
        terminalState s.state = false →
        (cleanup_expired_sessions w now).dictGet sid = some s) ∧
    (sid ∈ expiredIds w now →
        ∃ s, w.dictGet sid = some s ∧
          (s.is_expired now = true ∨ terminalState s.state = true)) := by
  constructor
  · intro s hs he ht
    unfold cleanup_expired_sessions
    rw [foldl_evictOne_not_mem _ _ _ (not_mem_expiredIds hs (by rw [he, ht]; rfl))]
    exact hs
  · intro hm
    rcases mem_expiredIds hm with ⟨s, hs, hp⟩
    exact ⟨s, hs, by simpa using hp⟩

theorem reaper_eviction_condition_witness :
    ((cleanup_expired_sessions (sampleWorld SessionState.AWAITING_2FA) 50).dictGet "a"
        = some (sampleAt SessionState.AWAITING_2FA)) ∧
    (∃ s, (sampleWorld SessionState.DONE).dictGet "a" = some s ∧
        (s.is_expired 5 = true ∨ terminalState s.state = true)) :=
  ⟨(reaper_eviction_condition (sampleWorld SessionState.AWAITING_2FA) 50 "a").1
      (sampleAt SessionState.AWAITING_2FA) (by decide) (by decide) (by decide),
   (reaper_eviction_condition (sampleWorld SessionState.DONE) 5 "a").2 (by decide)⟩

/-- C1 counterexample: run `create_session` on a fresh manager with a
login that fails (`_perform_login` returns an error).  The registered
session ends in the terminal state `ERROR` while both Playwright handles
are still live: the login-failure path performs no teardown, contradicting
the claim that every transition into a terminal state releases the agent
handle. -/
theorem login_failure_leaves_handle_live :
    ((create_session emptyWorld "a" "user" 0 ["f.png"] "/tmp/a" InitOutcome.ok
        (false, some "Login failed. Please check your credentials.")).world.dictGet "a").map
      (fun s => (s.state, terminalState s.state, s.browser, s.playwright))
      = some (SessionState.ERROR, true, true, true) := by
  decide

/-- C3: the code never enforces the configured second-factor wait window.
A session created at time 0 sitting in `AWAITING_2FA` with a live handle is
still registered, still `AWAITING_2FA` and still holding its handle when
the reaper sweeps at `now = 91`, past `max_2fa_wait_seconds = 90` (the
setting exists but is read nowhere); only the overall 600s timeout ever
fires, and when it does (sweep at `now = 601`) the session is evicted
(removed, not marked `ERROR`). -/
theorem second_factor_timeout_not_enforced :
    settings.max_2fa_wait_seconds < 91 ∧
    cleanup_expired_sessions (sampleWorld SessionState.AWAITING_2FA) 91
      = sampleWorld SessionState.AWAITING_2FA ∧
    ((sampleWorld SessionState.AWAITING_2FA).dictGet "a").map
      (fun s => (s.state, s.browser)) = some (SessionState.AWAITING_2FA, true) ∧
    (cleanup_expired_sessions (sampleWorld SessionState.AWAITING_2FA) 601).dictGet "a"
      = none := by
  decide

/-- C4 counterexample: a session is mid-upload (the executor call for item
0 of its single work item is in flight) when `cancel_session` runs: the
session object is marked `CANCELLED` and unregistered — but when the
in-flight upload step returns, `_perform_uploads` finishes the loop and
overwrites the object's state with `DONE`, so `CANCELLED` does not
supersede the in-flight call's outcome.  Moreover `cancel_session` on an
already-`DONE` session moves it to `CANCELLED`, which the claim rules
out. -/
theorem cancel_superseded_by_inflight_done :
    (heapGet (cancel_session (sampleWorld SessionState.UPLOADING) "a").1.heap "a").map
      (fun s => s.state) = some SessionState.CANCELLED ∧
    (heapGet (worldUploadStep uScenario "a"
        (worldUploadStep uScenario "a"
          (cancel_session (sampleWorld SessionState.UPLOADING) "a").1
          (TaskPhase.uploading 0)).1
        (worldUploadStep uScenario "a"
          (cancel_session (sampleWorld SessionState.UPLOADING) "a").1
          (TaskPhase.uploading 0)).2).1.heap "a").map (fun s => s.state)
      = some SessionState.DONE ∧
    (heapGet (cancel_session (sampleWorld SessionState.DONE) "a").1.heap "a").map
      (fun s => s.state) = some SessionState.CANCELLED := by
  decide

/-- C9 counterexample: sweep a manager holding one terminal (`ERROR`)
session whose handle is still live.  At the observable point right after
the eviction's `dict.pop` — the second world of the sweep trace — the id
is gone from the registry while the session object's browser handle is
still attached: removal from the registry happens *before* handle
teardown, not after it as the claim states. -/
theorem eviction_removes_before_teardown :
    ((sweepTrace (sampleWorld SessionState.ERROR) 0).getD 1 emptyWorld).dictGet "a"
      = none ∧
    (heapGet ((sweepTrace (sampleWorld SessionState.ERROR) 0).getD 1 emptyWorld).heap
        "a").map (fun s => s.browser) = some true ∧
    terminalState (sampleAt SessionState.ERROR).state = true := by
  decide

/-- C1 (amended): transitions into a terminal state release the handle on
the browser-initialization exception path of `create_session`, on upload
completion and on cancel (the cancel case is `cancel_session_spec`), but
NOT on the login-failure path of `create_session` nor on the exception
path of `submit_2fa`, which set `ERROR` with the handle untouched; such a
terminal session's handle is released only when a reaper sweep evicts
it. -/
theorem terminal_teardown_amended :
    (∀ (w : World) (sid username : String) (now : Nat) (files : List String)
        (temp_dir : String) (pw b : Bool) (msg : String),
      w.registered.length < settings.max_concurrent_sessions →
      ∃ s1, (create_session w sid username now files temp_dir
          (InitOutcome.raises pw b msg) (false, none)).world.dictGet sid = some s1 ∧
        s1.state = SessionState.ERROR ∧ s1.browser = false ∧ s1.playwright = false) ∧
    (∀ (w : World) (sid username : String) (now : Nat) (files : List String)
        (temp_dir : String) (n2fa : Bool) (e : String),
      w.registered.length < settings.max_concurrent_sessions →
      ∃ s1, (create_session w sid username now files temp_dir InitOutcome.ok
          (n2fa, some e)).world.dictGet sid = some s1 ∧
        s1.state = SessionState.ERROR ∧ s1.browser = true ∧ s1.playwright = true) ∧
    (∀ (w : World) (sid c e : String) (s : BrowserSession),
      w.dictGet sid = some s → s.state = SessionState.AWAITING_2FA →
      (submit_2fa w sid c (Except.error e)).world.dictGet sid
        = some { s with state := SessionState.ERROR, error := some e }) ∧
    (∀ (u : Nat → Bool × Option String × Option String) (s : BrowserSession),
      s.results = [] →
      (runUpload u s).state = SessionState.DONE ∧ (runUpload u s).browser = false ∧
      (runUpload u s).playwright = false) ∧
    (∀ (w : World) (now : Nat) (sid : String) (s : BrowserSession),
      w.dictGet sid = some s → terminalState s.state = true →
      heapGet (cleanup_expired_sessions w now).heap sid = some (cleanup_session s) ∧
      (cleanup_session s).browser = false ∧ (cleanup_session s).playwright = false ∧
      (cleanup_expired_sessions w now).dictGet sid = none) := by
  refine ⟨?_, ?_, ?_, ?_, ?_⟩
  · intro w sid username now files temp_dir pw b msg h
    refine ⟨_, create_session_dictGet w sid username now files temp_dir
      (InitOutcome.raises pw b msg) (false, none) h, rfl, rfl, rfl⟩
  · intro w sid username now files temp_dir n2fa e h
    cases n2fa <;>
      exact ⟨_, create_session_dictGet w sid username now files temp_dir
        InitOutcome.ok (_, some e) h, rfl, rfl, rfl⟩
  · intro w sid c e s hs hst
    unfold submit_2fa
    simp only [hs]
    rw [if_neg (by simp [hst])]
    exact dictGet_setSession_self hs
  · intro u s h
    have hr := runUpload_spec (u := u) h
    exact ⟨hr.2.2.2.1, hr.2.2.2.2.1, hr.2.2.2.2.2⟩
  · intro w now sid s hs ht
    have hm := @mem_expiredIds_of w now sid s hs (by rw [ht]; simp)
    have hoff := sweep_foldl_cleans (expiredIds w now) w sid s hs hm
    exact ⟨hoff.1, rfl, rfl, dictGet_none_of_not_registered hoff.2⟩

theorem terminal_teardown_amended_witness :
    (∃ s1, (create_session emptyWorld "a" "u" 0 ["f.png"] "/t"
        (InitOutcome.raises true false "boom") (false, none)).world.dictGet "a"
          = some s1 ∧
      s1.state = SessionState.ERROR ∧ s1.browser = false ∧ s1.playwright = false) ∧
    (∃ s1, (create_session emptyWorld "a" "u" 0 ["f.png"] "/t" InitOutcome.ok
        (false, some "Login failed. Please check your credentials.")).world.dictGet "a"
          = some s1 ∧
      s1.state = SessionState.ERROR ∧ s1.browser = true ∧ s1.playwright = true) ∧
    ((submit_2fa (sampleWorld SessionState.AWAITING_2FA) "a" "123456"
        (Except.error "boom")).world.dictGet "a"
      = some { sampleAt SessionState.AWAITING_2FA with
          state := SessionState.ERROR, error := some "boom" }) ∧
    ((runUpload uScenario (sampleAt SessionState.AUTHENTICATED)).state
        = SessionState.DONE ∧
     (runUpload uScenario (sampleAt SessionState.AUTHENTICATED)).browser = false ∧
     (runUpload uScenario (sampleAt SessionState.AUTHENTICATED)).playwright = false) ∧
    (heapGet (cleanup_expired_sessions (sampleWorld SessionState.DONE) 0).heap "a"
        = some (cleanup_session (sampleAt SessionState.DONE)) ∧
     (cleanup_session (sampleAt SessionState.DONE)).browser = false ∧
     (cleanup_session (sampleAt SessionState.DONE)).playwright = false ∧
     (cleanup_expired_sessions (sampleWorld SessionState.DONE) 0).dictGet "a" = none) :=
  ⟨terminal_teardown_amended.1 emptyWorld "a" "u" 0 ["f.png"] "/t" true false "boom"
      (by decide),
   terminal_teardown_amended.2.1 emptyWorld "a" "u" 0 ["f.png"] "/t" false
      "Login failed. Please check your credentials." (by decide),
   terminal_teardown_amended.2.2.1 (sampleWorld SessionState.AWAITING_2FA) "a" "123456"
      "boom" (sampleAt SessionState.AWAITING_2FA) (by decide) (by decide),
   terminal_teardown_amended.2.2.2.1 uScenario (sampleAt SessionState.AUTHENTICATED)
      (by decide),
   terminal_teardown_amended.2.2.2.2 (sampleWorld SessionState.DONE) 0 "a"
      (sampleAt SessionState.DONE) (by decide) (by decide)⟩

/-- C4 (amended): `cancel_session` on any registered session returns
`true`, marks the session object `CANCELLED` at that moment and removes
the id from the registry; the upload task never re-registers an id, so
after cancel every `get_session_status` query for the id returns
not-found — even though (see the counterexample) the unregistered session
object's own state is later overwritten by the still-running upload task,
and a `DONE`/`ERROR` session still in the registry is moved to `CANCELLED`
by cancel: terminal states are absorbing only for the registry view, not
for the session object. -/
theorem cancel_observable_semantics :
    (∀ (u : Nat → Bool × Option String × Option String) (sid2 : String)
        (w : World) (ph : TaskPhase),
      (worldUploadStep u sid2 w ph).1.registered = w.registered) ∧
    (∀ (w : World) (sid : String) (s : BrowserSession) (now : Nat),
      w.dictGet sid = some s →
      (cancel_session w sid).2 = true ∧
      (∃ s1, heapGet (cancel_session w sid).1.heap sid = some s1 ∧
          s1.state = SessionState.CANCELLED) ∧
      get_session_status (cancel_session w sid).1 sid now = none ∧
      (∀ (u : Nat → Bool × Option String × Option String) (ph : TaskPhase),
        get_session_status (worldUploadStep u sid (cancel_session w sid).1 ph).1
          sid now = none)) := by
  refine ⟨worldUploadStep_registered, ?_⟩
  intro w sid s now hs
  have hrepr : cancel_session w sid
      = ((w.setSession sid (cleanup_session { s with
            state := SessionState.CANCELLED })).unregister sid, true) := by
    unfold cancel_session
    rw [hs]
  have hmem : sid ∉ (cancel_session w sid).1.registered := by
    rw [hrepr]
    intro hc
    exact (mem_filter_ne.mp hc).2 rfl
  refine ⟨by rw [hrepr], ?_, ?_, ?_⟩
  · exact ⟨cleanup_session { s with state := SessionState.CANCELLED },
      by rw [hrepr]; exact heapGet_heapSet_self (dictGet_some_iff.mp hs).2, rfl⟩
  · unfold get_session_status
    rw [dictGet_none_of_not_registered hmem]
  · intro u ph
    unfold get_session_status
    rw [dictGet_none_of_not_registered (by
      rw [worldUploadStep_registered]
      exact hmem)]

theorem cancel_observable_semantics_witness :
    ((worldUploadStep uScenario "a" (sampleWorld SessionState.UPLOADING)
        (TaskPhase.uploading 0)).1.registered
      = (sampleWorld SessionState.UPLOADING).registered) ∧
    ((cancel_session (sampleWorld SessionState.DONE) "a").2 = true ∧
     (∃ s1, heapGet (cancel_session (sampleWorld SessionState.DONE) "a").1.heap "a"
          = some s1 ∧ s1.state = SessionState.CANCELLED) ∧
     get_session_status (cancel_session (sampleWorld SessionState.DONE) "a").1 "a" 7
        = none ∧
     (∀ (u : Nat → Bool × Option String × Option String) (ph : TaskPhase),
        get_session_status
          (worldUploadStep u "a" (cancel_session (sampleWorld SessionState.DONE) "a").1
            ph).1 "a" 7 = none)) :=
  ⟨cancel_observable_semantics.1 uScenario "a" (sampleWorld SessionState.UPLOADING)
      (TaskPhase.uploading 0),
   cancel_observable_semantics.2 (sampleWorld SessionState.DONE) "a"
      (sampleAt SessionState.DONE) 7 (by decide)⟩

/-- C9 (amended): during a reaper sweep an observer sees every id either
with its pre-sweep session or as not-found (never a half-updated
registration), and by the time the sweep finishes, every evicted session's
handles have been released and its id removed — but the removal from the
registry happens *before* the handle teardown within each eviction (see
the counterexample), not after it. -/
theorem eviction_observability_amended (w : World) (now : Nat) :
    (∀ w1, w1 ∈ sweepTrace w now → ∀ id,
        w1.dictGet id = w.dictGet id ∨ w1.dictGet id = none) ∧
    (∀ sid s, w.dictGet sid = some s →
        (s.is_expired now || terminalState s.state) = true →
        heapGet (cleanup_expired_sessions w now).heap sid
            = some (cleanup_session s) ∧
        (cleanup_session s).browser = false ∧
        (cleanup_session s).playwright = false ∧
        (cleanup_expired_sessions w now).dictGet sid = none) := by
  constructor
  · intro w1 h1 id
    exact evictWorlds_dictGet (expiredIds w now) w w1 h1 id
  · intro sid s hs hp
    have hoff := sweep_foldl_cleans (expiredIds w now) w sid s hs
      (mem_expiredIds_of hs hp)
    exact ⟨hoff.1, rfl, rfl, dictGet_none_of_not_registered hoff.2⟩

theorem eviction_observability_amended_witness :
    (((sweepTrace (sampleWorld SessionState.ERROR) 0).getD 1 emptyWorld).dictGet "a"
        = (sampleWorld SessionState.ERROR).dictGet "a" ∨
     ((sweepTrace (sampleWorld SessionState.ERROR) 0).getD 1 emptyWorld).dictGet "a"
        = none) ∧
    (heapGet (cleanup_expired_sessions (sampleWorld SessionState.ERROR) 0).heap "a"
        = some (cleanup_session (sampleAt SessionState.ERROR)) ∧
     (cleanup_session (sampleAt SessionState.ERROR)).browser = false ∧
     (cleanup_session (sampleAt SessionState.ERROR)).playwright = false ∧
     (cleanup_expired_sessions (sampleWorld SessionState.ERROR) 0).dictGet "a" = none) :=
  ⟨(eviction_observability_amended (sampleWorld SessionState.ERROR) 0).1
      ((sweepTrace (sampleWorld SessionState.ERROR) 0).getD 1 emptyWorld)
      (by decide) "a",
   (eviction_observability_amended (sampleWorld SessionState.ERROR) 0).2 "a"
      (sampleAt SessionState.ERROR) (by decide) (by decide)⟩

/-- C2: at every observable point during `_perform_uploads`, the results
list is exactly the outcomes of the items already processed, in work-item
order (`results[i]` corresponds to `files_to_upload[i]` and to the i-th
upload call), `len(results)` equals the cursor, and the cursor never
exceeds the number of work items; a completed run has one result per item
regardless of per-item success and ends `DONE`. -/
theorem upload_loop_invariants (u : Nat → Bool × Option String × Option String)
    (s : BrowserSession) (h : s.results = []) :
    (∀ q ∈ uploadTrace u s,
        q.1.results.length = q.1.current_file_index ∧
        q.1.current_file_index ≤ s.files_to_upload.length ∧
        q.1.results = (List.range q.1.current_file_index).map
          (resultFor u s.files_to_upload)) ∧
    (runUpload u s).results = (List.range s.files_to_upload.length).map
      (resultFor u s.files_to_upload) ∧
    (runUpload u s).results.length = s.files_to_upload.length ∧
    (runUpload u s).current_file_index = s.files_to_upload.length ∧
    (runUpload u s).state = SessionState.DONE := by
  constructor
  · intro q hq
    have hg := uploadTraceAux_good (s.files_to_upload.length + 2) (uploadEnter s)
      (uploadEnter_good h) q hq
    exact ⟨by rw [hg.2.1]; simp, goodPoint_cursor_le hg, hg.2.1⟩
  · have hr := runUpload_spec (u := u) h
    exact ⟨hr.2.1, by rw [hr.2.1]; simp, hr.2.2.1, hr.2.2.2.1⟩

theorem upload_loop_invariants_witness :
    (sampleAt SessionState.AUTHENTICATED).results = [] ∧
    ((∀ q ∈ uploadTrace uScenario (sampleAt SessionState.AUTHENTICATED),
        q.1.results.length = q.1.current_file_index ∧
        q.1.current_file_index
          ≤ (sampleAt SessionState.AUTHENTICATED).files_to_upload.length ∧
        q.1.results = (List.range q.1.current_file_index).map
          (resultFor uScenario (sampleAt SessionState.AUTHENTICATED).files_to_upload)) ∧
     (runUpload uScenario (sampleAt SessionState.AUTHENTICATED)).results
        = (List.range (sampleAt SessionState.AUTHENTICATED).files_to_upload.length).map
            (resultFor uScenario (sampleAt SessionState.AUTHENTICATED).files_to_upload) ∧
     (runUpload uScenario (sampleAt SessionState.AUTHENTICATED)).results.length
        = (sampleAt SessionState.AUTHENTICATED).files_to_upload.length ∧
     (runUpload uScenario (sampleAt SessionState.AUTHENTICATED)).current_file_index
        = (sampleAt SessionState.AUTHENTICATED).files_to_upload.length ∧
     (runUpload uScenario (sampleAt SessionState.AUTHENTICATED)).state
        = SessionState.DONE) :=
  ⟨rfl, upload_loop_invariants uScenario (sampleAt SessionState.AUTHENTICATED) rfl⟩

/-- C7: a wrong second-factor code leaves the session (and the entire
manager world) in `AWAITING_2FA`, so a retry is possible; a correct code
then moves it to `AUTHENTICATED` and spawns the upload task; and the
scenario "login needs 2FA, two wrong codes, then a correct code" traverses
exactly `LOGIN → AWAITING_2FA → AWAITING_2FA → AUTHENTICATED → UPLOADING →
DONE`. -/
theorem two_factor_retry_scenario :
    (∀ (w : World) (sid c : String) (err : Option String) (s : BrowserSession),
      w.dictGet sid = some s → s.state = SessionState.AWAITING_2FA →
      (submit_2fa w sid c (Except.ok (false, err))).world = w ∧
      (submit_2fa w sid c (Except.ok (false, err))).success = false ∧
      (submit_2fa w sid c (Except.ok (false, err))).state
        = SessionState.AWAITING_2FA) ∧
    (∀ (w : World) (sid c : String) (s : BrowserSession),
      w.dictGet sid = some s → s.state = SessionState.AWAITING_2FA →
      (submit_2fa w sid c (Except.ok (true, none))).success = true ∧
      (submit_2fa w sid c (Except.ok (true, none))).state
        = SessionState.AUTHENTICATED ∧
      (submit_2fa w sid c (Except.ok (true, none))).upload_started = true ∧
      (submit_2fa w sid c (Except.ok (true, none))).world.dictGet sid
        = some { s with
            state := SessionState.AUTHENTICATED,
            message := "Authentication successful! Starting uploads..." }) ∧
    scenarioStates = [SessionState.LOGIN, SessionState.AWAITING_2FA,
      SessionState.AWAITING_2FA, SessionState.AUTHENTICATED,
      SessionState.UPLOADING, SessionState.DONE] := by
  refine ⟨?_, ?_, by decide⟩
  · intro w sid c err s hs hst
    unfold submit_2fa
    simp only [hs]
    rw [if_neg (by simp [hst])]
    exact ⟨rfl, rfl, rfl⟩
  · intro w sid c s hs hst
    unfold submit_2fa
    simp only [hs]
    rw [if_neg (by simp [hst])]
    exact ⟨rfl, rfl, rfl, dictGet_setSession_self hs⟩

theorem two_factor_retry_scenario_witness :
    ((submit_2fa (sampleWorld SessionState.AWAITING_2FA) "a" "000000"
        (Except.ok (false, some "Invalid 2FA code. Please try again."))).world
      = sampleWorld SessionState.AWAITING_2FA ∧
     (submit_2fa (sampleWorld SessionState.AWAITING_2FA) "a" "000000"
        (Except.ok (false, some "Invalid 2FA code. Please try again."))).success
      = false ∧
     (submit_2fa (sampleWorld SessionState.AWAITING_2FA) "a" "000000"
        (Except.ok (false, some "Invalid 2FA code. Please try again."))).state
      = SessionState.AWAITING_2FA) ∧
    ((submit_2fa (sampleWorld SessionState.AWAITING_2FA) "a" "654321"
        (Except.ok (true, none))).success = true ∧
     (submit_2fa (sampleWorld SessionState.AWAITING_2FA) "a" "654321"
        (Except.ok (true, none))).state = SessionState.AUTHENTICATED ∧
     (submit_2fa (sampleWorld SessionState.AWAITING_2FA) "a" "654321"
        (Except.ok (true, none))).upload_started = true ∧
     (submit_2fa (sampleWorld SessionState.AWAITING_2FA) "a" "654321"
        (Except.ok (true, none))).world.dictGet "a"
      = some { sampleAt SessionState.AWAITING_2FA with
          state := SessionState.AUTHENTICATED
          message := "Authentication successful! Starting uploads..." }) :=
  ⟨two_factor_retry_scenario.1 (sampleWorld SessionState.AWAITING_2FA) "a" "000000"
      (some "Invalid 2FA code. Please try again.")
      (sampleAt SessionState.AWAITING_2FA) (by decide) (by decide),
   two_factor_retry_scenario.2.1 (sampleWorld SessionState.AWAITING_2FA) "a" "654321"
      (sampleAt SessionState.AWAITING_2FA) (by decide) (by decide)⟩

/-- C10: the progress reported by `get_session_status` is the session's
`progress` property: `current_file_index / len(files_to_upload)` when the
file list is non-empty and 0.0 when it is empty (the division is guarded);
whenever the cursor is within bounds the value lies in [0, 1]; and a
session with an empty file list finishes `DONE` with progress 0.0, not
1.0. -/
theorem progress_spec :
    (∀ (w : World) (sid : String) (now : Nat) (v : StatusView),
      get_session_status w sid now = some v →
      ∃ s, w.dictGet sid = some s ∧ v.progress = s.progress ∧
        (s.files_to_upload.length = 0 → v.progress = 0) ∧
        (0 < s.files_to_upload.length →
          v.progress = (s.current_file_index : ℚ) / (s.files_to_upload.length : ℚ)) ∧
        (s.current_file_index ≤ s.files_to_upload.length →
          0 ≤ v.progress ∧ v.progress ≤ 1)) ∧
    (∀ (u : Nat → Bool × Option String × Option String) (s : BrowserSession),
      s.files_to_upload = [] →
      (runUpload u s).state = SessionState.DONE ∧ (runUpload u s).progress = 0) := by
  constructor
  · intro w sid now v hv
    unfold get_session_status at hv
    cases hs : w.dictGet sid with
    | none =>
      rw [hs] at hv
      exact Option.noConfusion hv
    | some s =>
      rw [hs] at hv
      injection hv with hveq
      subst hveq
      refine ⟨s, rfl, rfl, ?_, ?_, ?_⟩
      · intro h0
        have h1 : s.files_to_upload = [] := List.length_eq_zero.mp h0
        show s.progress = 0
        simp [BrowserSession.progress, h1]
      · intro hpos
        have hne : ¬s.files_to_upload.isEmpty = true := by
          rw [List.isEmpty_iff]
          intro he
          rw [he] at hpos
          simp at hpos
        show s.progress = _
        unfold BrowserSession.progress
        rw [if_neg hne]
      · intro hle
        show 0 ≤ s.progress ∧ s.progress ≤ 1
        unfold BrowserSession.progress
        by_cases hemp : s.files_to_upload.isEmpty = true
        · rw [if_pos hemp]
          norm_num
        · rw [if_neg hemp]
          constructor
          · exact div_nonneg (Nat.cast_nonneg _) (Nat.cast_nonneg _)
          · exact div_le_one_of_le₀ (Nat.cast_le.mpr hle) (Nat.cast_nonneg _)
  · intro u s hf
    rw [runUpload_nil hf]
    refine ⟨rfl, ?_⟩
    show BrowserSession.progress _ = 0
    simp [BrowserSession.progress, cleanup_browser, finishBlock, hf]

theorem progress_spec_witness :
    (∃ s, sampleNoFilesWorld.dictGet "a" = some s ∧
      sampleView.progress = s.progress ∧
      (s.files_to_upload.length = 0 → sampleView.progress = 0) ∧
      (0 < s.files_to_upload.length →
        sampleView.progress
          = (s.current_file_index : ℚ) / (s.files_to_upload.length : ℚ)) ∧
      (s.current_file_index ≤ s.files_to_upload.length →
        0 ≤ sampleView.progress ∧ sampleView.progress ≤ 1)) ∧
    ((runUpload uScenario { sampleAt SessionState.AUTHENTICATED with
        files_to_upload := [] }).state = SessionState.DONE ∧
     (runUpload uScenario { sampleAt SessionState.AUTHENTICATED with
        files_to_upload := [] }).progress = 0) :=
  ⟨progress_spec.1 sampleNoFilesWorld "a" 3 sampleView (by decide),
   progress_spec.2 uScenario { sampleAt SessionState.AUTHENTICATED with
      files_to_upload := [] } rfl⟩

end BrowserManager
